import Mathlib

/-!
Verification development for the Bullseye streaming variational-inference
graph (src/Bullseye/bullseye_graph.py). The `Graph` class is shallowly
embedded: its attribute dictionary becomes a Lean structure, numpy arrays
become lists of rationals, Python exceptions become an `Except` error type,
and the opaque tensorflow graph operations (built by the `.graph` module,
which is not part of the sources) are modelled from the specification where
a claim depends on them.
-/

namespace Bullseye

/-- A 2-D numeric array (numpy array / pandas chunk), as a list of rows. -/
abbrev Mat := List (List ℚ)

/-- Values stored in the dynamically typed option attributes of `Graph`. -/
inductive PyVal
  | bool (b : Bool)
  | int (n : Int)
  | rat (q : ℚ)
deriving DecidableEq

/-- Python exceptions that the embedded methods can raise. -/
inductive PyError
  | assertionError
  | nameError
  | typeError
  | attributeError
  | emptyDataError
deriving DecidableEq

/-- Non-fatal warnings emitted through the warning_handler collaborators
`warn_unknown_parameter` and `warn_useless_parameter`. -/
inductive BullsWarning
  | unknownParameter (key : String)
  | uselessParameter (key useful : String)
deriving DecidableEq

/-- Python truthiness of an attribute value, as used by `if self.keep_1d_prior:`. -/
def truthy : PyVal → Bool
  | .bool b => b
  | .int n => n != 0
  | .rat q => q != 0

/-- Truthiness of a possibly missing attribute. Reading a missing attribute
would be an AttributeError in Python; the option attributes consulted by the
embedded code are always present, so the `none` arm is unreachable. -/
def truthyOpt : Option PyVal → Bool
  | some v => truthy v
  | none => false

/-- The `option_list` built in `Graph.__init__` (bullseye_graph.py lines 55-105). -/
def option_list : List String :=
  ["brutal_iteration", "speed", "step_size_decrease_coef", "s",
   "quadrature_deg", "flatten_activations", "local_std_trick", "m",
   "m_prior", "compute_kernel", "compute_prior_kernel", "sparse",
   "chunk_as_sum", "keep_1d_prior", "number_of_chunk_max",
   "natural_param_likelihood", "natural_param_prior", "silent"]

/-- Default values of the option attributes, as set in `Graph.__init__`.
Keys outside `option_list` have no attribute (`none`). -/
def default_option : String → Option PyVal := fun key =>
  if key = "brutal_iteration" then some (.bool false)
  else if key = "speed" then some (.int 1)
  else if key = "step_size_decrease_coef" then some (.rat (1/2))
  else if key = "s" then some (.int 10)
  else if key = "quadrature_deg" then some (.int 12)
  else if key = "flatten_activations" then some (.bool false)
  else if key = "local_std_trick" then some (.bool true)
  else if key = "m" then some (.int 0)
  else if key = "m_prior" then some (.int 0)
  else if key = "compute_kernel" then some (.bool false)
  else if key = "compute_prior_kernel" then some (.bool false)
  else if key = "sparse" then some (.bool true)
  else if key = "chunk_as_sum" then some (.bool true)
  else if key = "keep_1d_prior" then some (.bool true)
  else if key = "number_of_chunk_max" then some (.int 0)
  else if key = "natural_param_likelihood" then some (.bool false)
  else if key = "natural_param_prior" then some (.bool false)
  else if key = "silent" then some (.bool true)
  else none

/-- The state of a `Bullseye.Graph` instance. The fundamental attributes of
`__init__` (data, init and function related) are explicit fields, `None`
becoming `none`; the option attributes live in the dynamic `attrs` map
(Python `setattr`/`getattr`). The model functions Phi, grad_Phi, hess_Phi,
Projs are opaque external collaborators and are represented only by the
flag recording that `set_model` stored them. The tensorflow graph returned
by `construct_bullseye_graph` (module `.graph`, not among the sources) is
represented by the `graph_built` flag. -/
structure GraphState where
  attrs : String → Option PyVal
  d : Option Nat
  k : Option Nat
  p : Option Nat
  X : Option Mat
  Y : Option Mat
  prior_std : Option Mat
  file : Option String
  chunksize : Option Nat
  num_of_chunks : Option Nat
  mu_0 : Option (List ℚ)
  cov_0 : Option Mat
  feed_with_is_called : Bool
  set_model_is_called : Bool
  init_with_is_called : Bool
  build_is_called : Bool
  graph_built : Bool

/-- The state produced by `Graph.__init__`. -/
def initialGraphState : GraphState :=
  { attrs := default_option
    d := none, k := none, p := none, X := none, Y := none
    prior_std := none, file := none, chunksize := none, num_of_chunks := none
    mu_0 := none, cov_0 := none
    feed_with_is_called := false, set_model_is_called := false
    init_with_is_called := false, build_is_called := false
    graph_built := false }

/-- Python `setattr(self, key, value)` on the dynamic attribute map. -/
def setAttr (st : GraphState) (key : String) (v : PyVal) : GraphState :=
  { st with attrs := fun s => if s = key then some v else st.attrs s }

/-- The keyword loop of `set_options` (lines 300-304): unknown keys produce a
`warn_unknown_parameter` warning and are skipped, known keys are stored with
`setattr`. -/
def apply_kwargs : GraphState → List BullsWarning → List (String × PyVal) →
    GraphState × List BullsWarning
  | st, ws, [] => (st, ws)
  | st, ws, kv :: rest =>
      if kv.1 ∈ option_list then
        apply_kwargs (setAttr st kv.1 kv.2) ws rest
      else
        apply_kwargs st (ws ++ [BullsWarning.unknownParameter kv.1]) rest

/-- `Graph.set_options` (lines 291-311). After the keyword loop, the dependent
option block runs: if `keep_1d_prior` is truthy, a `warn_useless_parameter`
warning is emitted when `compute_prior_kernel` was among the keywords (the
source passes the misspelt name "computed_prior_kernel" to the warning), and
`compute_prior_kernel` is forced to False. The method never raises: it is a
total function. -/
def set_options (st : GraphState) (kwargs : List (String × PyVal)) :
    GraphState × List BullsWarning :=
  let r := apply_kwargs st [] kwargs
  if truthyOpt (r.1.attrs "keep_1d_prior") then
    let ws :=
      if kwargs.any (fun kv => kv.1 = "compute_prior_kernel") then
        r.2 ++ [BullsWarning.uselessParameter "computed_prior_kernel" "keep_1d_prior"]
      else r.2
    (setAttr r.1 "compute_prior_kernel" (.bool false), ws)
  else r

/-- The value a Python dict of keyword arguments associates to `key`: the last
binding wins (a literal dict cannot repeat keys; for a list of bindings the
later entries shadow the earlier ones, matching the fold in `apply_kwargs`). -/
def lastValue : List (String × PyVal) → String → Option PyVal
  | [], _ => none
  | kv :: rest, key =>
      match lastValue rest key with
      | some v => some v
      | none => if kv.1 = key then some kv.2 else none

/-- A numpy array argument that may be 1-D or 2-D (`len(shape) in [1,2]`). -/
inductive NpArr
  | one (v : List ℚ)
  | two (m : Mat)
deriving DecidableEq

/-- `shape[0]` of a numpy array: for a 1-D array its length, for a 2-D array
its row count. -/
def NpArr.dim0 : NpArr → Nat
  | .one v => v.length
  | .two m => m.length

/-- `expand_dims(a, 0)` applied to 1-D arrays, identity on 2-D arrays, as in
lines 160-163 of `feed_with`. -/
def NpArr.toMat : NpArr → Mat
  | .one v => [v]
  | .two m => m

/-- `shape[-1]` of a 2-D array: the common row width. -/
def Mat.cols : Mat → Nat
  | [] => 0
  | r :: _ => r.length

/-- The `prior_std` argument of `feed_with`: an int, a vector (diagonal) or a
full matrix. -/
inductive PriorStdArg
  | int (i : Int)
  | arr1 (v : List ℚ)
  | arr2 (m : Mat)
deriving DecidableEq

/-- `q * np.eye(p)`. -/
def scaleEye (p : Nat) (q : ℚ) : Mat :=
  (List.range p).map (fun i => (List.range p).map (fun j => if i = j then q else 0))

/-- `np.diag(v)`. -/
def diagMat (v : List ℚ) : Mat :=
  (List.range v.length).map (fun i =>
    (List.range v.length).map (fun j => if i = j then v.getD i 0 else 0))

/-- The `prior_std` handling of `feed_with` (lines 203-212): an int scales the
identity, a vector must have shape [p] and is placed on the diagonal, a
matrix must have shape [p, p]. -/
def priorStdMatrix (p : Nat) : PriorStdArg → Except PyError Mat
  | .int i => .ok (scaleEye p (i : ℚ))
  | .arr1 v => if v.length = p then .ok (diagMat v) else .error .assertionError
  | .arr2 m =>
      if m.length = p ∧ Mat.cols m = p then .ok m else .error .assertionError

/-- The common tail of `feed_with` (lines 200-215): compute `p = d * k` once
for all, transform `prior_std` into a p×p matrix, and record that the method
completed. `d` and `k` are set on every path that reaches this point. -/
def feedTail (st : GraphState) (prior_std : PriorStdArg) : Except PyError GraphState :=
  let p := st.d.getD 0 * st.k.getD 0
  match priorStdMatrix p prior_std with
  | .error e => .error e
  | .ok ps =>
      .ok { st with p := some p, prior_std := some ps, feed_with_is_called := true }

/-- `Graph.feed_with` (lines 119-215). Method 1 (X or Y given) checks that both
are given with equal first dimensions and stores them 2-D; method 2 (no file)
requires d and k (the source line `assert type(d), type(k) == [int,int]`
builds an always-truthy tuple, so no further check happens); method 3 streams
a file: it asserts the file exists, asserts `type(chunksize) == int` only when
chunksize is not None, asserts k is given, deduces d from the column count of
the first row (pandas raises EmptyDataError on an empty file), counts the
lines, stores the streaming attributes, and then computes
`self.num_of_chunks = int(n/chunksize)` — when chunksize is None this divides
an int by None, which raises TypeError. The file system is abstracted as a
map from paths to the parsed rows of the file. -/
def feed_with (st : GraphState) (X Y : Option NpArr) (d k : Option Nat)
    (prior_std : PriorStdArg) (file : Option String) (chunksize : Option Nat)
    (fs : String → Option (List (List ℚ))) : Except PyError GraphState :=
  if X.isSome || Y.isSome then
    match X, Y with
    | some Xa, some Ya =>
        if Ya.dim0 = Xa.dim0 then
          feedTail { st with
            X := some Xa.toMat, Y := some Ya.toMat,
            d := some (Mat.cols Xa.toMat), k := some (Mat.cols Ya.toMat) } prior_std
        else .error .assertionError
    | _, _ => .error .assertionError
  else
    match file with
    | none =>
        match d, k with
        | some dv, some kv => feedTail { st with d := some dv, k := some kv } prior_std
        | _, _ => .error .assertionError
    | some f =>
        match fs f with
        | none => .error .assertionError
        | some rows =>
            match k with
            | none => .error .assertionError
            | some kk =>
                match rows.head? with
                | none => .error .emptyDataError
                | some row0 =>
                    let n := rows.length
                    let st1 := { st with
                      k := some kk, d := some (row0.length - 1),
                      file := some f, chunksize := chunksize }
                    match chunksize with
                    | none => .error .typeError
                    | some cs =>
                        feedTail { st1 with num_of_chunks := some (n / cs) } prior_std

/-- `Graph.set_model` (lines 217-260): stores the model functions (opaque
external collaborators, from the `predefined_functions` module or supplied
directly) and records that the method was called. -/
def set_model (st : GraphState) : GraphState :=
  { st with set_model_is_called := true }

/-- A `mu_0` / `cov_0` argument of `init_with`: a Python scalar
(`type(...) in [float, int]`), a 1-D array or a 2-D array. -/
inductive NumArg
  | scalar (q : ℚ)
  | arr1 (v : List ℚ)
  | arr2 (m : Mat)
deriving DecidableEq

/-- `Graph.init_with` (lines 262-289). For a scalar μ₀,
`mu_0 * np.ones(self.p)` is stored (np.ones(None) raises TypeError when p is
not yet set). For a 1-D μ₀ the source evaluates
`assert list(mu_0.shape) == [p]` where the name `p` is unbound in the local
scope (the source means `self.p`), so Python raises NameError before the
vector is stored. A 2-D μ₀ matches no branch and μ₀ is silently left
unchanged. The Σ₀ branches for 1-D and 2-D arguments check `mu_0.shape`, not
`cov_0.shape`, exactly as the source does: when μ₀ was a scalar this attribute
access raises AttributeError (ints and floats have no `.shape`). -/
def init_with (st : GraphState) (mu_0 cov_0 : NumArg) : Except PyError GraphState :=
  match (match mu_0 with
    | .scalar q =>
        match st.p with
        | none => Except.error PyError.typeError
        | some p => Except.ok { st with mu_0 := some (List.replicate p q) }
    | .arr1 _ => Except.error PyError.nameError
    | .arr2 _ => Except.ok st) with
  | .error e => .error e
  | .ok st1 =>
      match (match cov_0 with
        | .scalar q =>
            match st1.p with
            | none => Except.error PyError.typeError
            | some p => Except.ok { st1 with cov_0 := some (scaleEye p q) }
        | .arr1 v =>
            match mu_0 with
            | .scalar _ => Except.error PyError.attributeError
            | .arr1 w =>
                if some w.length = st1.p then
                  Except.ok { st1 with cov_0 := some (diagMat v) }
                else Except.error PyError.assertionError
            | .arr2 _ => Except.error PyError.assertionError
        | .arr2 m =>
            match mu_0 with
            | .scalar _ => Except.error PyError.attributeError
            | .arr1 _ => Except.error PyError.assertionError
            | .arr2 w =>
                if some w.length = st1.p ∧ some (Mat.cols w) = st1.p then
                  Except.ok { st1 with cov_0 := some m }
                else Except.error PyError.assertionError) with
      | .error e => .error e
      | .ok st2 => .ok { st2 with init_with_is_called := true }

/-- `Graph.build` (lines 313-325): asserts that `feed_with`, `set_model` and
`init_with` have all been called before anything else happens, then calls the
external collaborator `construct_bullseye_graph` (module `.graph`, not among
the sources), whose successful result is modelled by the `graph_built` flag. -/
def build (st : GraphState) : Except PyError GraphState :=
  if st.feed_with_is_called && st.set_model_is_called && st.init_with_is_called then
    .ok { st with graph_built := true, build_is_called := true }
  else .error .assertionError

/-- Modelled from the spec: the sufficient statistics e, ρ, β computed by the
tensorflow graph (module `.graph`, not among the sources). Their concrete
tensor shapes depend on configuration; what the streaming code relies on is
their componentwise additive structure, so each of the three quantities is
represented by one rational component. -/
structure Stats where
  e : ℚ
  rho : ℚ
  beta : ℚ
deriving DecidableEq

/-- Componentwise addition of sufficient statistics. -/
def Stats.add (a b : Stats) : Stats :=
  ⟨a.e + b.e, a.rho + b.rho, a.beta + b.beta⟩

/-- The zero statistics, to which `ops["init_globals"]` resets the sum-mode
accumulator. -/
def Stats.zero : Stats := ⟨0, 0, 0⟩

/-- Modelled from the spec: the global e, ρ, β variables held by the
tensorflow graph (module `.graph`, not among the sources). `acc` is the
sum-mode accumulator (`ops["init_globals"]` zeroes it, `ops["update_globals"]`
adds the statistics of the current chunk to it); `slots` are the per-chunk
records used when `chunk_as_sum` is false (`ops["update_globals"][i]` writes
slot i). -/
structure GlobalsState where
  acc : Stats
  slots : List Stats
deriving DecidableEq

/-- `sess.run(ops["init_globals"])`: reset the sum-mode accumulator to zero
(spec: mode "sum" initializes e, ρ, β to zero before iterating chunks). -/
def initGlobals (g : GlobalsState) : GlobalsState :=
  { g with acc := Stats.zero }

/-- `sess.run(ops["update_globals"], feed_dict)` in sum mode: add the
statistics of the fed chunk to the accumulator. -/
def updateGlobalsSum (g : GlobalsState) (s : Stats) : GlobalsState :=
  { g with acc := g.acc.add s }

/-- `sess.run(ops["update_globals"][i], feed_dict)` in list mode: store the
statistics of the fed chunk in slot i. -/
def updateGlobalsSlot (g : GlobalsState) (i : Nat) (s : Stats) : GlobalsState :=
  { g with slots := g.slots.set i s }

/-- Modelled from the spec: `to_one_hot` comes from the `.utils` module, which
is not among the sources. Per the file-format contract of the spec, the label
column is one-hot expanded to width k: the integer label ℓ maps to the
length-k row with a 1 in position ℓ and 0 elsewhere. -/
def to_one_hot (k : Nat) (labels : List ℚ) : Mat :=
  labels.map (fun l => (List.range k).map (fun j => if (j : ℚ) = l then 1 else 0))

/-- `X = data[:,1:]/253.` (line 470): drop the label column and divide every
feature value by the fixed normalization constant 253. -/
def chunkX (c : Mat) : Mat :=
  c.map (fun row => row.tail.map (fun x => x / 253))

/-- `Y = to_one_hot(data[:,0])` (line 471): one-hot expansion of the label
column. -/
def chunkY (k : Nat) (c : Mat) : Mat :=
  to_one_hot k (c.map (fun row => row.headD 0))

/-- The chunk loop of `set_globals_from_chunks` (lines 466-499).
`localStat` stands for the statistics eᵢ, ρᵢ, βᵢ that the graph computes from
the fed placeholders "X:0" and "Y:0" at the current posterior (an opaque graph
computation). The loop decodes each chunk, runs the update operation (sum or
slot form according to `chunk_as_sum`), and — after processing chunk i —
breaks when `number_of_chunk_max != 0 and i >= number_of_chunk_max`. The
returned list collects the feeding dicts of the chunks actually processed,
in order. -/
def chunkLoop (chunk_as_sum : Bool) (ncm : Int) (k : Nat)
    (localStat : Mat → Mat → Stats) :
    Nat → GlobalsState → List Mat → GlobalsState × List (Mat × Mat)
  | _, g, [] => (g, [])
  | i, g, c :: rest =>
      let X := chunkX c
      let Y := chunkY k c
      let g1 := if chunk_as_sum then updateGlobalsSum g (localStat X Y)
                else updateGlobalsSlot g i (localStat X Y)
      if ncm ≠ 0 ∧ (i : Int) ≥ ncm then (g1, [(X, Y)])
      else
        let r := chunkLoop chunk_as_sum ncm k localStat (i + 1) g1 rest
        (r.1, (X, Y) :: r.2)

/-- `Graph.set_globals_from_chunks` (lines 446-499): create a fresh pandas
reader over the file (`chunks` is the sequence of chunks the reader yields,
the same on every pass since the file does not change), re-run
`ops["init_globals"]` when `chunk_as_sum` is set, then stream the chunks
through `chunkLoop`. -/
def set_globals_from_chunks (chunk_as_sum : Bool) (ncm : Int) (k : Nat)
    (localStat : Mat → Mat → Stats) (chunks : List Mat) (g0 : GlobalsState) :
    GlobalsState × List (Mat × Mat) :=
  let g1 := if chunk_as_sum then initGlobals g0 else g0
  chunkLoop chunk_as_sum ncm k localStat 0 g1 chunks

/-- Status of one iteration as decided by the graph operation
`ops["iteration"]`; per the spec the backtracking controller ends an
iteration either Accepted or Exhausted. -/
inductive IterStatus
  | accepted
  | exhausted
deriving DecidableEq

/-- Read a boolean option attribute with Python truthiness. -/
def GraphState.optBool (st : GraphState) (key : String) : Bool :=
  truthyOpt (st.attrs key)

/-- Read an integer option attribute (`number_of_chunk_max`). -/
def GraphState.optInt (st : GraphState) (key : String) : Int :=
  match st.attrs key with
  | some (.int n) => n
  | _ => 0

/-- The `mus` entry of the dict returned by `run`: a trajectory when
`keep_track` is set, otherwise only the final mean (the Python value has a
different type in the two cases). -/
inductive MuOut
  | traj (ms : List (List ℚ))
  | final (m : List ℚ)
deriving DecidableEq

/-- The `covs` entry of the dict returned by `run`. -/
inductive CovOut
  | traj (cs : List Mat)
  | final (c : Mat)
deriving DecidableEq

/-- The dict returned by `run` (lines 440-444). -/
structure RunResult where
  mus : MuOut
  covs : CovOut
  elbos : List ℚ
  times : List ℚ
  status : List IterStatus
deriving DecidableEq

/-- The mutable lists of `run` (lines 347-352), the console output of line
426, and the graph globals threaded through the streaming passes. -/
structure LoopAcc where
  mus : List (List ℚ)
  covs : List Mat
  elbos : List ℚ
  times : List ℚ
  status : List IterStatus
  prints : List (IterStatus × ℚ)
  globals : GlobalsState
deriving DecidableEq

/-- The accumulator at the start of `run`: all lists empty. -/
def initLoopAcc (g0 : GlobalsState) : LoopAcc :=
  { mus := [], covs := [], elbos := [], times := [], status := [], prints := [],
    globals := g0 }

/-- The tail of one epoch of `run` (lines 410-429): run `ops["iteration"]`
obtaining (statu, elbo), optionally snapshot mu and cov when `keep_track`,
print `'{statu}, with {elbo}'` (the only place the per-iteration ELBO goes),
and append to `status` and `times`. The `elbos` list is never appended to. -/
def recordIter (kt : Bool) (iOp : Nat → IterStatus × ℚ)
    (mOp : Nat → List ℚ) (cOp : Nat → Mat) (el : Nat → ℚ)
    (g : GlobalsState) (acc : LoopAcc) (epoch : Nat) : LoopAcc :=
  let statu := (iOp epoch).1
  let elbo := (iOp epoch).2
  let acc1 := if kt then
      { acc with mus := acc.mus ++ [mOp epoch], covs := acc.covs ++ [cOp epoch] }
    else acc
  { acc1 with
      globals := g,
      prints := acc1.prints ++ [(statu, elbo)],
      status := acc1.status ++ [statu],
      times := acc1.times ++ [el epoch] }

/-- One epoch of the loop of `run` (lines 379-429). When no file is streamed,
the feeding dict is built from the X, Y passed to `run` if both are present;
otherwise the stored `self.X` / `self.Y` are asserted present. When a file is
streamed, one full pass of `set_globals_from_chunks` updates the graph
globals. The graph session operations are opaque collaborators:
`iOp` is `ops["iteration"]`, `mOp`/`cOp` are `ops["mu"]`/`ops["cov"]`, `el`
is the elapsed wall-clock time of the epoch and `localStat`/`chunks` feed the
streaming pass. -/
def runEpoch (st : GraphState) (Xa Ya : Option Mat) (kt : Bool)
    (iOp : Nat → IterStatus × ℚ) (mOp : Nat → List ℚ) (cOp : Nat → Mat)
    (el : Nat → ℚ) (localStat : Mat → Mat → Stats) (chunks : List Mat)
    (acc : LoopAcc) (epoch : Nat) : Except PyError LoopAcc :=
  match st.file with
  | none =>
      if Xa.isSome && Ya.isSome then
        .ok (recordIter kt iOp mOp cOp el acc.globals acc epoch)
      else if Xa.isNone && st.X.isNone then .error .assertionError
      else if Ya.isNone && st.Y.isNone then .error .assertionError
      else .ok (recordIter kt iOp mOp cOp el acc.globals acc epoch)
  | some _ =>
      let g1 := (set_globals_from_chunks (st.optBool "chunk_as_sum")
        (st.optInt "number_of_chunk_max") (st.k.getD 0) localStat chunks
        acc.globals).1
      .ok (recordIter kt iOp mOp cOp el g1 acc epoch)

/-- `for epoch in range(n_iter)`: the remaining epoch count and the current
epoch index drive the loop. -/
def runLoop (st : GraphState) (Xa Ya : Option Mat) (kt : Bool)
    (iOp : Nat → IterStatus × ℚ) (mOp : Nat → List ℚ) (cOp : Nat → Mat)
    (el : Nat → ℚ) (localStat : Mat → Mat → Stats) (chunks : List Mat) :
    Nat → Nat → LoopAcc → Except PyError LoopAcc
  | 0, _, acc => .ok acc
  | rem + 1, epoch, acc =>
      match runEpoch st Xa Ya kt iOp mOp cOp el localStat chunks acc epoch with
      | .error e => .error e
      | .ok acc1 => runLoop st Xa Ya kt iOp mOp cOp el localStat chunks rem (epoch + 1) acc1

/-- `Graph.run` (lines 327-444): assert the graph is built, run `n_iter`
epochs, and assemble the returned dict. When `keep_track` is false the final
mu and cov are fetched once after the loop (modelled by reading the opaque
mu/cov operations at index `n_iter`). The `elbos` entry is the list built at
line 350, which no statement of the loop ever appends to. -/
def run (st : GraphState) (n_iter : Nat) (Xa Ya : Option Mat) (keep_track : Bool)
    (iOp : Nat → IterStatus × ℚ) (mOp : Nat → List ℚ) (cOp : Nat → Mat)
    (el : Nat → ℚ) (localStat : Mat → Mat → Stats) (chunks : List Mat)
    (g0 : GlobalsState) : Except PyError RunResult :=
  if st.build_is_called = false then .error .assertionError
  else
    match runLoop st Xa Ya keep_track iOp mOp cOp el localStat chunks n_iter 0
        (initLoopAcc g0) with
    | .error e => .error e
    | .ok acc =>
        .ok { mus := if keep_track then MuOut.traj acc.mus else MuOut.final (mOp n_iter)
              covs := if keep_track then CovOut.traj acc.covs else CovOut.final (cOp n_iter)
              elbos := acc.elbos
              times := acc.times
              status := acc.status }

/-- A Gaussian posterior state (mean, covariance). -/
structure Posterior where
  mu : List ℚ
  cov : Mat
deriving DecidableEq

/-- Modelled from the spec: the backtracking step-size controller implemented
inside `ops["iteration"]` by the `.graph` module, which is not among the
sources. Per spec §4.4: propose a step scaled by the current speed, evaluate
the candidate ELBO through the posterior update rule (`propose`), accept if
`brutal_iteration` is set, or if there is no baseline ELBO yet, or if the
candidate ELBO is at least the previous ELBO; otherwise multiply the speed by
`step_size_decrease_coef` and retry, and after a finite retry bound give up
with status Exhausted, keeping the previous posterior unchanged. -/
def stepSizeControl (brutal : Bool) (coef : ℚ) (propose : ℚ → Posterior × ℚ)
    (prevElbo : Option ℚ) (prevPost : Posterior) :
    Nat → ℚ → IterStatus × Posterior × ℚ
  | 0, _ => (.exhausted, prevPost, prevElbo.getD 0)
  | retries + 1, speed =>
      let cand := (propose speed).1
      let elbo := (propose speed).2
      if brutal then (.accepted, cand, elbo)
      else
        match prevElbo with
        | none => (.accepted, cand, elbo)
        | some pe =>
            if pe ≤ elbo then (.accepted, cand, elbo)
            else stepSizeControl brutal coef propose prevElbo prevPost retries
              (speed * coef)

/-!
Helper lemmas about the chunk loop.
-/

/-- The feeding dicts produced by `chunkLoop` are the decode of a prefix of
the chunk sequence. -/
theorem chunkLoop_fed_take (cas : Bool) (ncm : Int) (k : Nat)
    (ls : Mat → Mat → Stats) (cs : List Mat) :
    ∀ (i : Nat) (g : GlobalsState), ∃ N,
      (chunkLoop cas ncm k ls i g cs).2
        = (cs.take N).map (fun c => (chunkX c, chunkY k c)) := by
  induction cs with
  | nil => intro i g; exact ⟨0, rfl⟩
  | cons c rest ih =>
      intro i g
      simp only [chunkLoop]
      by_cases h : ncm ≠ 0 ∧ (i : Int) ≥ ncm
      · rw [if_pos h]
        exact ⟨1, by simp⟩
      · rw [if_neg h]
        obtain ⟨N, hN⟩ := ih (i + 1)
          (if cas then updateGlobalsSum g (ls (chunkX c) (chunkY k c))
           else updateGlobalsSlot g i (ls (chunkX c) (chunkY k c)))
        exact ⟨N + 1, by simp [hN]⟩

/-- In sum mode the chunk loop never touches the per-chunk slots. -/
theorem chunkLoop_sum_slots (ncm : Int) (k : Nat) (ls : Mat → Mat → Stats)
    (cs : List Mat) : ∀ (i : Nat) (g : GlobalsState),
    (chunkLoop true ncm k ls i g cs).1.slots = g.slots := by
  induction cs with
  | nil => intro i g; rfl
  | cons c rest ih =>
      intro i g
      simp only [chunkLoop]
      by_cases h : ncm ≠ 0 ∧ (i : Int) ≥ ncm
      · rw [if_pos h]; simp [updateGlobalsSum]
      · rw [if_neg h]; simp [ih, updateGlobalsSum]

/-- In sum mode the final accumulator depends on the incoming globals only
through the incoming accumulator. -/
theorem chunkLoop_sum_acc_congr (ncm : Int) (k : Nat) (ls : Mat → Mat → Stats)
    (cs : List Mat) : ∀ (i : Nat) (g g' : GlobalsState), g.acc = g'.acc →
    (chunkLoop true ncm k ls i g cs).1.acc
      = (chunkLoop true ncm k ls i g' cs).1.acc := by
  induction cs with
  | nil => intro i g g' h; exact h
  | cons c rest ih =>
      intro i g g' h
      simp only [chunkLoop]
      by_cases hc : ncm ≠ 0 ∧ (i : Int) ≥ ncm
      · rw [if_pos hc, if_pos hc]; simp [updateGlobalsSum, h]
      · rw [if_neg hc, if_neg hc]
        apply ih
        simp [updateGlobalsSum, h]

/-- Two global states with equal components are equal. -/
theorem GlobalsState.eq_of (a b : GlobalsState) (h1 : a.acc = b.acc)
    (h2 : a.slots = b.slots) : a = b := by
  cases a; cases b; simp_all

/-- C1 counterexample: a three-chunk file streamed with
`number_of_chunk_max = 1` runs the update operation on TWO chunks, not on
exactly one as the claim states: the cap is only checked after chunk i has
been processed (`if self.number_of_chunk_max != 0 and i>=self.number_of_chunk_max: break`),
so chunk 0 and chunk 1 are both read and aggregated. -/
theorem c1_counterexample :
    (set_globals_from_chunks true 1 2 (fun _ _ => ⟨1, 1, 1⟩)
        [[[0, 253, 506]], [[1, 253, 0]], [[0, 0, 253]]] ⟨Stats.zero, []⟩).2.length = 2
    ∧ (2 : Nat) ≠ 1 := by decide

/-- C1 (amended): for every streaming pass over a file with more than one
chunk and `number_of_chunk_max` set to 1, `set_globals_from_chunks`
processes exactly two chunks — the first two of the file, one more than the
configured maximum, because the cap is checked only after a chunk has been
read and aggregated — and ignores the rest of the file without error. -/
theorem c1_amended (cas : Bool) (k : Nat) (ls : Mat → Mat → Stats)
    (g0 : GlobalsState) (c0 c1 : Mat) (rest : List Mat) :
    (set_globals_from_chunks cas 1 k ls (c0 :: c1 :: rest) g0).2
      = [(chunkX c0, chunkY k c0), (chunkX c1, chunkY k c1)] := by
  have h0 : ¬ ((1 : Int) ≠ 0 ∧ ((0 : Nat) : Int) ≥ 1) := by norm_num
  have h1 : (1 : Int) ≠ 0 ∧ ((1 : Nat) : Int) ≥ 1 := by norm_num
  simp only [set_globals_from_chunks, chunkLoop]
  rw [if_neg h0]
  rw [if_pos h1]

/-- C4: every chunk read during a streaming pass is decoded so that column 0
becomes a label block one-hot expanded to width k and the remaining columns
become a feature block with every value divided by the fixed normalization
constant 253: the feeding dicts of the pass are exactly a prefix of the chunk
sequence mapped through that decode. -/
theorem c4_every_chunk_decoded (cas : Bool) (ncm : Int) (k : Nat)
    (ls : Mat → Mat → Stats) (chunks : List Mat) (g0 : GlobalsState) :
    ∃ N, (set_globals_from_chunks cas ncm k ls chunks g0).2
      = (chunks.take N).map (fun c =>
          (c.map (fun row => row.tail.map (fun x => x / 253)),
           (c.map (fun row => row.headD 0)).map (fun l =>
             (List.range k).map (fun j => if (j : ℚ) = l then 1 else 0)))) := by
  obtain ⟨N, hN⟩ := chunkLoop_fed_take cas ncm k ls chunks 0
    (if cas then initGlobals g0 else g0)
  refine ⟨N, ?_⟩
  have : (set_globals_from_chunks cas ncm k ls chunks g0).2
      = (chunkLoop cas ncm k ls 0 (if cas then initGlobals g0 else g0) chunks).2 := rfl
  rw [this, hN]
  simp [chunkX, chunkY, to_one_hot]

/-- C5: in sum mode (`chunk_as_sum` true) each pass re-runs
`ops["init_globals"]` before iterating chunks, so running the aggregation
twice over the same chunks with the same posterior (the same `localStat`),
without committing an update in between, leaves exactly the same global
statistics as running it once: the aggregator is idempotent. -/
theorem c5_sum_mode_idempotent (ncm : Int) (k : Nat) (ls : Mat → Mat → Stats)
    (chunks : List Mat) (g0 : GlobalsState) :
    (set_globals_from_chunks true ncm k ls chunks
        (set_globals_from_chunks true ncm k ls chunks g0).1).1
      = (set_globals_from_chunks true ncm k ls chunks g0).1 := by
  apply GlobalsState.eq_of
  · have hcongr := chunkLoop_sum_acc_congr ncm k ls chunks 0
      (initGlobals (set_globals_from_chunks true ncm k ls chunks g0).1)
      (initGlobals g0) rfl
    simpa [set_globals_from_chunks] using hcongr
  · exact chunkLoop_sum_slots ncm k ls chunks 0
      (initGlobals (set_globals_from_chunks true ncm k ls chunks g0).1)

/-- C3: with `brutal_iteration` false, the backtracking controller either
accepts a candidate whose ELBO is at least the previous accepted ELBO (the
recorded ELBO never decreases), or exhausts its retries and leaves the
posterior unchanged for that iteration. -/
theorem c3_elbo_monotone_or_exhausted (coef : ℚ) (propose : ℚ → Posterior × ℚ)
    (pe : ℚ) (prevPost : Posterior) (fuel : Nat) (speed : ℚ) :
    ((stepSizeControl false coef propose (some pe) prevPost fuel speed).1
        = IterStatus.accepted
      ∧ pe ≤ (stepSizeControl false coef propose (some pe) prevPost fuel speed).2.2)
    ∨ ((stepSizeControl false coef propose (some pe) prevPost fuel speed).1
        = IterStatus.exhausted
      ∧ (stepSizeControl false coef propose (some pe) prevPost fuel speed).2.1
        = prevPost) := by
  induction fuel generalizing speed with
  | zero => exact Or.inr ⟨rfl, rfl⟩
  | succ n ih =>
      simp only [stepSizeControl]
      by_cases h : pe ≤ (propose speed).2
      · left
        simp [h]
      · simp only [if_neg h, Bool.false_eq_true, if_false]
        exact ih (speed * coef)

/-!
Helper lemmas about the keyword loop of `set_options`.
-/

/-- A key outside `option_list` is never written by the keyword loop. -/
theorem apply_kwargs_attrs_not_in (kwargs : List (String × PyVal)) :
    ∀ (st : GraphState) (ws : List BullsWarning) (key : String),
    key ∉ option_list →
    (apply_kwargs st ws kwargs).1.attrs key = st.attrs key := by
  induction kwargs with
  | nil => intro st ws key _; rfl
  | cons kv rest ih =>
      intro st ws key hk
      simp only [apply_kwargs]
      by_cases h : kv.1 ∈ option_list
      · rw [if_pos h, ih _ _ _ hk]
        have hne : key ≠ kv.1 := fun he => hk (he ▸ h)
        simp [setAttr, hne]
      · rw [if_neg h, ih _ _ _ hk]

/-- Warnings already collected survive the rest of the keyword loop. -/
theorem apply_kwargs_ws_mono (kwargs : List (String × PyVal)) :
    ∀ (st : GraphState) (ws : List BullsWarning) (w : BullsWarning),
    w ∈ ws → w ∈ (apply_kwargs st ws kwargs).2 := by
  induction kwargs with
  | nil => intro st ws w hw; exact hw
  | cons kv rest ih =>
      intro st ws w hw
      simp only [apply_kwargs]
      by_cases h : kv.1 ∈ option_list
      · rw [if_pos h]; exact ih _ _ _ hw
      · rw [if_neg h]; exact ih _ _ _ (List.mem_append_left _ hw)

/-- Every keyword whose name is outside `option_list` produces an
unknown-parameter warning. -/
theorem apply_kwargs_warns (kwargs : List (String × PyVal)) :
    ∀ (st : GraphState) (ws : List BullsWarning) (kv : String × PyVal),
    kv ∈ kwargs → kv.1 ∉ option_list →
    BullsWarning.unknownParameter kv.1 ∈ (apply_kwargs st ws kwargs).2 := by
  induction kwargs with
  | nil => intro st ws kv hin _; cases hin
  | cons kv0 rest ih =>
      intro st ws kv hin hk
      simp only [apply_kwargs]
      rcases List.mem_cons.mp hin with he | hr
      · subst he
        rw [if_neg hk]
        exact apply_kwargs_ws_mono rest _ _ _ (by simp)
      · by_cases h : kv0.1 ∈ option_list
        · rw [if_pos h]; exact ih _ _ _ hr hk
        · rw [if_neg h]; exact ih _ _ _ hr hk

/-- For a key in `option_list`, the keyword loop leaves the attribute at the
last value the keywords bind to it (or unchanged when they never bind it). -/
theorem apply_kwargs_attrs_known (kwargs : List (String × PyVal)) :
    ∀ (st : GraphState) (ws : List BullsWarning) (key : String),
    key ∈ option_list →
    (apply_kwargs st ws kwargs).1.attrs key =
      (match lastValue kwargs key with
        | some v => some v
        | none => st.attrs key) := by
  induction kwargs with
  | nil => intro st ws key _; rfl
  | cons kv rest ih =>
      intro st ws key hk
      simp only [apply_kwargs, lastValue]
      by_cases h : kv.1 ∈ option_list
      · rw [if_pos h, ih _ _ _ hk]
        cases hlv : lastValue rest key with
        | some v => simp
        | none =>
            by_cases he : kv.1 = key
            · subst he; simp [setAttr]
            · have hne : key ≠ kv.1 := fun x => he x.symm
              simp [setAttr, hne, he]
      · rw [if_neg h, ih _ _ _ hk]
        have hne : kv.1 ≠ key := fun he => h (he ▸ hk)
        cases lastValue rest key with
        | some v => simp
        | none => simp [hne]

/-- Outside the `compute_prior_kernel` key, `set_options` ends with exactly
the attribute values the keyword loop produced. -/
theorem set_options_attrs_ne_cpk (st : GraphState) (kwargs : List (String × PyVal))
    (key : String) (hne : key ≠ "compute_prior_kernel") :
    (set_options st kwargs).1.attrs key = (apply_kwargs st [] kwargs).1.attrs key := by
  unfold set_options
  by_cases h : truthyOpt ((apply_kwargs st [] kwargs).1.attrs "keep_1d_prior") = true
  · rw [if_pos h]
    simp [setAttr, hne]
  · rw [if_neg h]

/-- Warnings of the keyword loop survive the dependent-option block. -/
theorem set_options_ws_mono (st : GraphState) (kwargs : List (String × PyVal))
    (w : BullsWarning) (hw : w ∈ (apply_kwargs st [] kwargs).2) :
    w ∈ (set_options st kwargs).2 := by
  unfold set_options
  by_cases h : truthyOpt ((apply_kwargs st [] kwargs).1.attrs "keep_1d_prior") = true
  · rw [if_pos h]
    by_cases ha : kwargs.any (fun kv => kv.1 = "compute_prior_kernel") = true
    · rw [if_pos ha]; exact List.mem_append_left _ hw
    · rw [if_neg ha]; exact hw
  · rw [if_neg h]; exact hw

/-- C6: every call to `set_options` that requests `compute_prior_kernel=True`
while `keep_1d_prior` is in effect (truthy once the keywords are applied) is
resolved in favor of the more restrictive option — after the call
`compute_prior_kernel` is False — and a non-fatal useless-parameter warning
is issued. `set_options` is a total function, so the call cannot raise. -/
theorem c6_conflict_resolution (st : GraphState) (kwargs : List (String × PyVal))
    (h1 : ("compute_prior_kernel", PyVal.bool true) ∈ kwargs)
    (h2 : truthyOpt ((apply_kwargs st [] kwargs).1.attrs "keep_1d_prior") = true) :
    (set_options st kwargs).1.attrs "compute_prior_kernel" = some (PyVal.bool false)
    ∧ BullsWarning.uselessParameter "computed_prior_kernel" "keep_1d_prior"
        ∈ (set_options st kwargs).2 := by
  have hany : kwargs.any (fun kv => kv.1 = "compute_prior_kernel") = true := by
    rw [List.any_eq_true]
    exact ⟨_, h1, by simp⟩
  unfold set_options
  rw [if_pos h2, if_pos hany]
  constructor
  · simp [setAttr]
  · exact List.mem_append_right _ (by simp)

/-- C6 witness: requesting `compute_prior_kernel=True` on a fresh graph (where
`keep_1d_prior` defaults to True) leaves `compute_prior_kernel` False and
emits the useless-parameter warning. -/
theorem c6_witness :
    (set_options initialGraphState
        [("compute_prior_kernel", PyVal.bool true)]).1.attrs "compute_prior_kernel"
      = some (PyVal.bool false)
    ∧ BullsWarning.uselessParameter "computed_prior_kernel" "keep_1d_prior"
        ∈ (set_options initialGraphState [("compute_prior_kernel", PyVal.bool true)]).2 :=
  c6_conflict_resolution initialGraphState
    [("compute_prior_kernel", PyVal.bool true)] (by simp) (by decide)

/-- C7 counterexample: the claim "every known name is applied" fails on the
code. `compute_prior_kernel` is a known option name, yet calling
`set_options` with it set to True (together with an unknown name) leaves the
attribute False afterwards, because the dependent-option block forces it off
while `keep_1d_prior` (default True) is in effect. -/
theorem c7_counterexample :
    "compute_prior_kernel" ∈ option_list
    ∧ (set_options initialGraphState
        [("compute_prior_kernel", PyVal.bool true),
         ("bogus_key", PyVal.bool true)]).1.attrs "compute_prior_kernel"
      ≠ some (PyVal.bool true) := by decide

/-- C7 (amended): for every call to `set_options` with a mix of known and
unknown keyword names, each unknown name is reported as a non-fatal warning
and ignored (the attribute is not created or changed), and every known name
is applied — the attribute ends at the last value bound to it — except
`compute_prior_kernel`, which is forced back to False whenever
`keep_1d_prior` is in effect after the keyword loop. The call never raises:
`set_options` is a total function. -/
theorem c7_amended (st : GraphState) (kwargs : List (String × PyVal)) :
    (∀ kv : String × PyVal, kv ∈ kwargs → kv.1 ∉ option_list →
        (set_options st kwargs).1.attrs kv.1 = st.attrs kv.1
        ∧ BullsWarning.unknownParameter kv.1 ∈ (set_options st kwargs).2)
    ∧ (∀ (key : String) (v : PyVal), key ∈ option_list →
        key ≠ "compute_prior_kernel" → lastValue kwargs key = some v →
        (set_options st kwargs).1.attrs key = some v)
    ∧ (truthyOpt ((set_options st kwargs).1.attrs "keep_1d_prior") = true →
        (set_options st kwargs).1.attrs "compute_prior_kernel"
          = some (PyVal.bool false)) := by
  refine ⟨?_, ?_, ?_⟩
  · intro kv hin hk
    have hne : kv.1 ≠ "compute_prior_kernel" := by
      intro he
      exact hk (he ▸ (by decide : "compute_prior_kernel" ∈ option_list))
    constructor
    · rw [set_options_attrs_ne_cpk st kwargs kv.1 hne]
      exact apply_kwargs_attrs_not_in kwargs st [] kv.1 hk
    · exact set_options_ws_mono st kwargs _ (apply_kwargs_warns kwargs st [] kv hin hk)
  · intro key v hk hne hlv
    rw [set_options_attrs_ne_cpk st kwargs key hne,
      apply_kwargs_attrs_known kwargs st [] key hk, hlv]
  · intro h
    have hk : truthyOpt ((apply_kwargs st [] kwargs).1.attrs "keep_1d_prior") = true := by
      rw [← set_options_attrs_ne_cpk st kwargs "keep_1d_prior" (by decide)]
      exact h
    unfold set_options
    rw [if_pos hk]
    by_cases ha : kwargs.any (fun kv => kv.1 = "compute_prior_kernel") = true
    · rw [if_pos ha]; simp [setAttr]
    · rw [if_neg ha]; simp [setAttr]

/-- C7 witness: on a fresh graph, `set_options` with the known keyword
`speed = 3` and the unknown keyword `bogus_key` applies the known one, warns
about and ignores the unknown one. -/
theorem c7_amended_witness :
    (set_options initialGraphState
        [("speed", PyVal.int 3), ("bogus_key", PyVal.bool true)]).1.attrs "bogus_key"
      = initialGraphState.attrs "bogus_key"
    ∧ BullsWarning.unknownParameter "bogus_key"
        ∈ (set_options initialGraphState
            [("speed", PyVal.int 3), ("bogus_key", PyVal.bool true)]).2
    ∧ (set_options initialGraphState
        [("speed", PyVal.int 3), ("bogus_key", PyVal.bool true)]).1.attrs "speed"
      = some (PyVal.int 3) := by
  refine ⟨?_, ?_, ?_⟩
  · exact ((c7_amended initialGraphState _).1 ("bogus_key", PyVal.bool true)
      (by simp) (by decide)).1
  · exact ((c7_amended initialGraphState _).1 ("bogus_key", PyVal.bool true)
      (by simp) (by decide)).2
  · exact (c7_amended initialGraphState _).2.1 "speed" (PyVal.int 3)
      (by decide) (by decide) (by decide)

/-- C8: out-of-order method calls fail immediately with a precondition check:
`build` fails unless `feed_with`, `set_model` and `init_with` have all been
called — its assert is the first statement, so no graph is constructed and no
state is produced — and `run` fails unless `build` has been called, again
before any iteration work happens. -/
theorem c8_out_of_order :
    (∀ st : GraphState,
        ¬ (st.feed_with_is_called = true ∧ st.set_model_is_called = true
            ∧ st.init_with_is_called = true) →
        build st = Except.error PyError.assertionError)
    ∧ (∀ (st : GraphState) (n : Nat) (Xa Ya : Option Mat) (kt : Bool)
        (iOp : Nat → IterStatus × ℚ) (mOp : Nat → List ℚ) (cOp : Nat → Mat)
        (el : Nat → ℚ) (ls : Mat → Mat → Stats) (ch : List Mat) (g0 : GlobalsState),
        st.build_is_called = false →
        run st n Xa Ya kt iOp mOp cOp el ls ch g0
          = Except.error PyError.assertionError) := by
  constructor
  · intro st h
    unfold build
    rw [if_neg]
    intro hc
    apply h
    simpa [Bool.and_eq_true, and_assoc] using hc
  · intro st n Xa Ya kt iOp mOp cOp el ls ch g0 h
    unfold run
    rw [if_pos h]

/-- C8 witness: on a freshly constructed graph, where none of the setup
methods has run, both `build` and `run` fail with the assertion error. -/
theorem c8_witness :
    build initialGraphState = Except.error PyError.assertionError
    ∧ run initialGraphState 1 none none false (fun _ => (IterStatus.accepted, 0))
        (fun _ => []) (fun _ => []) (fun _ => 0) (fun _ _ => Stats.zero) []
        ⟨Stats.zero, []⟩
      = Except.error PyError.assertionError :=
  ⟨c8_out_of_order.1 initialGraphState (by intro h; exact absurd h.1 (by decide)),
   c8_out_of_order.2 initialGraphState 1 none none false _ _ _ _ _ _ _ rfl⟩

/-- The state a successful all-scalar `init_with` produces on a graph whose
p is established: μ₀ replicated, Σ₀ a scaled identity, and the
init-was-called flag set. -/
def initScalarResult (st : GraphState) (p : Nat) (q r : ℚ) : GraphState :=
  { st with
      mu_0 := some (List.replicate p q)
      cov_0 := some (scaleEye p r)
      init_with_is_called := true }

/-- C9: passing a 1-D array as `mu_0` makes `init_with` raise NameError — the
shape assertion references the undefined name `p` instead of `self.p` — so
the vector is never stored; an initial mean can only be supplied as a scalar,
which is stored as `mu_0 * np.ones(p)`. -/
theorem c9_vector_mu0_raises (st : GraphState) (v : List ℚ) (c : NumArg)
    (q r : ℚ) (p : Nat) (h : st.p = some p) :
    init_with st (NumArg.arr1 v) c = Except.error PyError.nameError
    ∧ ∃ st2, init_with st (NumArg.scalar q) (NumArg.scalar r) = Except.ok st2
        ∧ st2.mu_0 = some (List.replicate p q)
        ∧ st2.cov_0 = some (scaleEye p r)
        ∧ st2.init_with_is_called = true := by
  refine ⟨rfl, ?_⟩
  refine ⟨initScalarResult st p q r, ?_, rfl, rfl, rfl⟩
  simp [init_with, initScalarResult, h]

/-- A graph state with p established, for the C9 witness. -/
def c9state : GraphState := { initialGraphState with p := some 2 }

/-- C9 witness: on a graph with p = 2, `init_with` with the vector [1, 2] as
`mu_0` raises NameError, while scalar arguments succeed and store the
replicated mean. -/
theorem c9_witness :
    init_with c9state (NumArg.arr1 [1, 2]) (NumArg.scalar 1)
      = Except.error PyError.nameError
    ∧ ∃ st2, init_with c9state (NumArg.scalar 0) (NumArg.scalar 1) = Except.ok st2
        ∧ st2.mu_0 = some (List.replicate 2 (0 : ℚ))
        ∧ st2.cov_0 = some (scaleEye 2 1)
        ∧ st2.init_with_is_called = true :=
  c9_vector_mu0_raises c9state [1, 2] (NumArg.scalar 1) 0 1 2 rfl

/-- C10: calling `feed_with` in streaming mode (a file path and k supplied, the
file present and non-empty) without a chunksize is not caught by any
precondition check — the `type(chunksize) == int` assertion is guarded by
`if chunksize is not None` — and instead raises TypeError from the unguarded
expression `int(n/chunksize)` dividing by None. -/
theorem c10_missing_chunksize (st : GraphState) (ps : PriorStdArg) (kk : Nat)
    (fs : String → Option (List (List ℚ))) (f : String)
    (row0 : List ℚ) (rest : List (List ℚ)) (hfs : fs f = some (row0 :: rest)) :
    feed_with st none none none (some kk) ps (some f) none fs
      = Except.error PyError.typeError := by
  simp [feed_with, hfs]

/-- C10 witness: streaming a concrete two-line csv file with k = 3 and no
chunksize raises TypeError. -/
theorem c10_witness :
    feed_with initialGraphState none none none (some 3) (PriorStdArg.int 1)
        (some "data.csv")
        none (fun s => if s = "data.csv" then some [[0, 1, 2], [1, 3, 4]] else none)
      = Except.error PyError.typeError :=
  c10_missing_chunksize initialGraphState (PriorStdArg.int 1) 3
    (fun s => if s = "data.csv" then some [[0, 1, 2], [1, 3, 4]] else none)
    "data.csv" [0, 1, 2] [[1, 3, 4]] (by simp)

/-!
Helper lemmas about the epoch loop of `run`.
-/

/-- `recordIter` appends one status and one time and never touches `elbos`. -/
theorem recordIter_shape (kt : Bool) (iOp : Nat → IterStatus × ℚ)
    (mOp : Nat → List ℚ) (cOp : Nat → Mat) (el : Nat → ℚ)
    (g : GlobalsState) (acc : LoopAcc) (epoch : Nat) :
    (recordIter kt iOp mOp cOp el g acc epoch).elbos = acc.elbos
    ∧ (recordIter kt iOp mOp cOp el g acc epoch).status.length
        = acc.status.length + 1
    ∧ (recordIter kt iOp mOp cOp el g acc epoch).times.length
        = acc.times.length + 1 := by
  cases kt <;> simp [recordIter]

/-- A successful epoch appends one status and one time and never touches
`elbos`. -/
theorem runEpoch_ok_shape (st : GraphState) (Xa Ya : Option Mat) (kt : Bool)
    (iOp : Nat → IterStatus × ℚ) (mOp : Nat → List ℚ) (cOp : Nat → Mat)
    (el : Nat → ℚ) (ls : Mat → Mat → Stats) (ch : List Mat)
    (acc : LoopAcc) (epoch : Nat) (acc2 : LoopAcc)
    (h : runEpoch st Xa Ya kt iOp mOp cOp el ls ch acc epoch = Except.ok acc2) :
    acc2.elbos = acc.elbos
    ∧ acc2.status.length = acc.status.length + 1
    ∧ acc2.times.length = acc.times.length + 1 := by
  unfold runEpoch at h
  split at h
  · split at h
    · cases h
      exact recordIter_shape kt iOp mOp cOp el acc.globals acc epoch
    · split at h
      · cases h
      · split at h
        · cases h
        · cases h
          exact recordIter_shape kt iOp mOp cOp el acc.globals acc epoch
  · cases h
    exact recordIter_shape kt iOp mOp cOp el _ acc epoch

/-- The epoch loop, run to completion, appends exactly one status and one time
per epoch and leaves `elbos` untouched. -/
theorem runLoop_ok_shape (st : GraphState) (Xa Ya : Option Mat) (kt : Bool)
    (iOp : Nat → IterStatus × ℚ) (mOp : Nat → List ℚ) (cOp : Nat → Mat)
    (el : Nat → ℚ) (ls : Mat → Mat → Stats) (ch : List Mat) :
    ∀ (rem epoch : Nat) (acc acc2 : LoopAcc),
    runLoop st Xa Ya kt iOp mOp cOp el ls ch rem epoch acc = Except.ok acc2 →
    acc2.elbos = acc.elbos
    ∧ acc2.status.length = acc.status.length + rem
    ∧ acc2.times.length = acc.times.length + rem := by
  intro rem
  induction rem with
  | zero =>
      intro epoch acc acc2 h
      cases h
      exact ⟨rfl, rfl, rfl⟩
  | succ n ih =>
      intro epoch acc acc2 h
      unfold runLoop at h
      split at h
      · cases h
      · rename_i acc1 he
        obtain ⟨h1, h2, h3⟩ := runEpoch_ok_shape st Xa Ya kt iOp mOp cOp el ls ch
          acc epoch acc1 he
        obtain ⟨g1, g2, g3⟩ := ih (epoch + 1) acc1 acc2 h
        refine ⟨g1.trans h1, ?_, ?_⟩ <;> omega

/-- C2 (the code gap): every completed call of `run` returns a record whose
`status` and `times` entries hold one value per iteration, but whose `elbos`
entry is the empty list: `elbos` is created at line 350 and never appended to
(the per-iteration ELBO of `ops["iteration"]` is only printed), contradicting
the docstring "return: mu, Sigma, ELBOs, and times of each iteration". -/
theorem c2_elbos_never_recorded (st : GraphState) (n : Nat) (Xa Ya : Option Mat)
    (kt : Bool) (iOp : Nat → IterStatus × ℚ) (mOp : Nat → List ℚ)
    (cOp : Nat → Mat) (el : Nat → ℚ) (ls : Mat → Mat → Stats) (ch : List Mat)
    (g0 : GlobalsState) (r : RunResult)
    (h : run st n Xa Ya kt iOp mOp cOp el ls ch g0 = Except.ok r) :
    r.elbos = [] ∧ r.status.length = n ∧ r.times.length = n := by
  unfold run at h
  split at h
  · cases h
  · split at h
    · cases h
    · rename_i acc hl
      obtain ⟨h1, h2, h3⟩ := runLoop_ok_shape st Xa Ya kt iOp mOp cOp el ls ch
        n 0 (initLoopAcc g0) acc hl
      cases h
      simp only [initLoopAcc] at h1 h2 h3
      refine ⟨h1, ?_, ?_⟩ <;> simp_all

/-- A built graph state over a tiny in-memory dataset, for the C2 witness. -/
def c2state : GraphState :=
  { initialGraphState with build_is_called := true, X := some [[1]], Y := some [[1]] }

/-- C2 witness: a one-iteration run on a built graph completes and returns
one status and one time but zero ELBO values. -/
theorem c2_witness :
    ∃ r, run c2state 1 none none false
        (fun _ => (IterStatus.accepted, 5)) (fun _ => [0]) (fun _ => [[1]])
        (fun _ => 0) (fun _ _ => Stats.zero) [] ⟨Stats.zero, []⟩ = Except.ok r
      ∧ r.elbos = [] ∧ r.status.length = 1 ∧ r.times.length = 1 := by
  have h : run c2state 1 none none false
      (fun _ => (IterStatus.accepted, 5)) (fun _ => [0]) (fun _ => [[1]])
      (fun _ => 0) (fun _ _ => Stats.zero) [] ⟨Stats.zero, []⟩
      = Except.ok ⟨MuOut.final [0], CovOut.final [[1]], [], [0], [IterStatus.accepted]⟩ := by
    rfl
  exact ⟨_, h, c2_elbos_never_recorded _ 1 _ _ _ _ _ _ _ _ _ _ _ h⟩

end Bullseye
